import Mathlib

/-!
Shallow embedding of `quantum_transformers/transformers.py` (flax/JAX model code).

Tensors are modelled as explicit dimension fields plus a total valuation
function over flat natural-number indices; entries are rationals.  The
transcendental primitives that JAX supplies on floats (`exp`, `sqrt`, `gelu`)
are abstracted into a `Prim` record, so every definition below is executable
and parametric in them.  Dropout randomness is an explicit keep/drop stream
(`Rng`), mirroring flax where each `nn.Dropout` call site draws its own
folded rng; `deterministic = true` never consults the stream.  Assertion
failures in the Python source become `Except Err` errors.
-/

/-- Errors corresponding to the runtime failures of `transformers.py`:
the two asserts of `MultiHeadSelfAttention.__call__` (embedding-dimension
mismatch, head divisibility), the square-input assert of
`VisionTransformer.__call__`, and the width contract of the quantum layer. -/
inductive Err where
  | dimMismatch
  | headDivisibility
  | quantumWidth
  | shapeError
deriving DecidableEq

/-- Rank-2 real tensor: dimensions plus a total valuation. -/
structure T2 where
  d0 : Nat
  d1 : Nat
  val : Nat → Nat → ℚ

/-- Rank-3 real tensor. -/
structure T3 where
  d0 : Nat
  d1 : Nat
  d2 : Nat
  val : Nat → Nat → Nat → ℚ

/-- Rank-4 real tensor. -/
structure T4 where
  d0 : Nat
  d1 : Nat
  d2 : Nat
  d3 : Nat
  val : Nat → Nat → Nat → Nat → ℚ

/-- Integer (token-index) rank-2 tensor, the input of the text `Transformer`. -/
structure TI2 where
  d0 : Nat
  d1 : Nat
  val : Nat → Nat → Nat

/-- Result of the `VisionTransformer` pooling stage: rank 2 for the
`token` and `gap` classifiers, rank 3 when the classifier value matches
neither branch and pooling is skipped. -/
inductive TU where
  | t2 : T2 → TU
  | t3 : T3 → TU

/-- Primitive real functions supplied by JAX on floats; the embedding is
parametric in them (they are never unfolded by any proof). -/
structure Prim where
  exp : ℚ → ℚ
  sqrt : ℚ → ℚ
  gelu : ℚ → ℚ

/-- Explicit dropout randomness: a keep/drop bit per (call site, index). -/
def Rng : Type := Nat → List Nat → Bool

/-- Shift the call-site numbering of a random stream. -/
def rngShift (r : Rng) (m : Nat) : Rng := fun s idx => r (s + m) idx

/-- The keep/drop bits of site `s`, viewed over rank-3 indices. -/
def rngSlice3 (r : Rng) (s : Nat) : Nat → Nat → Nat → Bool :=
  fun i j k => r s [i, j, k]

/-- The keep/drop bits of site `s`, viewed over rank-4 indices. -/
def rngSlice4 (r : Rng) (s : Nat) : Nat → Nat → Nat → Nat → Bool :=
  fun i j k l => r s [i, j, k, l]

/-- Sum of `f 0 + ... + f (n-1)`. -/
def sumF : Nat → (Nat → ℚ) → ℚ
  | 0, _ => 0
  | n + 1, f => sumF n f + f n

/-- Maximum of `f 0, ..., f (n-1)` (degenerate at `f 0` for `n = 0`). -/
def maxF : Nat → (Nat → ℚ) → ℚ
  | 0, f => f 0
  | n + 1, f => max (maxF n f) (f n)

/-- Parameters of one `nn.Dense` instance: weight `w : in × out` and bias. -/
structure DenseP where
  w : Nat → Nat → ℚ
  b : Nat → ℚ

/-- Parameters of one `nn.LayerNorm` instance (learned scale and shift). -/
structure LNP where
  scale : Nat → ℚ
  shift : Nat → ℚ

/-- Quantum circuit capability: keyed by the qubit count, it turns owned
circuit parameters and an input row of that width into an output row of the
same width (spec section 6 collaborator contract). -/
structure Circuit where
  f : Nat → (Nat → ℚ) → (Nat → ℚ) → Nat → ℚ

/-- Parameters of one `MultiHeadSelfAttention` instance: the four dense
projections of the classical path and the circuit parameters owned by the
four `QuantumLayer` instances of the quantum path. -/
structure AttnP where
  wq : DenseP
  wk : DenseP
  wv : DenseP
  wo : DenseP
  thq : Nat → ℚ
  thk : Nat → ℚ
  thv : Nat → ℚ
  tho : Nat → ℚ

/-- Parameters of one `FeedForward` instance. -/
structure FFP where
  fc1 : DenseP
  fc2 : DenseP
  thm : Nat → ℚ

/-- Parameters of one `TransformerBlock` instance. -/
structure BlockP where
  ln1 : LNP
  ln2 : LNP
  attn : AttnP
  ff : FFP

/-- `nn.Dense(features)` on the last axis of a rank-3 tensor: `y = x A + b`. -/
def denseT3 (p : DenseP) (features : Nat) (x : T3) : T3 :=
  ⟨x.d0, x.d1, features,
   fun i j k => p.b k + sumF x.d2 (fun m => x.val i j m * p.w m k)⟩

/-- `nn.Dense(features)` on the last axis of a rank-2 tensor. -/
def denseT2 (p : DenseP) (features : Nat) (x : T2) : T2 :=
  ⟨x.d0, features,
   fun i k => p.b k + sumF x.d1 (fun m => x.val i m * p.w m k)⟩

/-- The epsilon of `nn.LayerNorm` (flax default `1e-6`). -/
def lnEps : ℚ := 1 / 1000000

/-- `nn.LayerNorm()`: normalize over the last axis with learned scale/shift. -/
def layerNorm3 (prim : Prim) (p : LNP) (x : T3) : T3 :=
  { x with val := fun i j k =>
      let n : ℚ := (x.d2 : ℚ)
      let mu := sumF x.d2 (fun m => x.val i j m) / n
      let sig := sumF x.d2 (fun m =>
        (x.val i j m - mu) * (x.val i j m - mu)) / n
      (x.val i j k - mu) / prim.sqrt (sig + lnEps) * p.scale k + p.shift k }

/-- `nn.Dropout(rate)(x, deterministic)` on a rank-3 tensor, pointwise form of
the flax semantics: identity when `rate = 0` or deterministic, all zeros when
`rate = 1`, otherwise keep-and-rescale by `1 / (1 - rate)` under the mask. -/
def dropout3 (rate : ℚ) (det : Bool) (keep : Nat → Nat → Nat → Bool) (x : T3) : T3 :=
  { x with val := fun i j k =>
      if rate = 0 ∨ det = true then x.val i j k
      else if rate = 1 then 0
      else if keep i j k = true then x.val i j k / (1 - rate) else 0 }

/-- `nn.Dropout(rate)(x, deterministic)` on a rank-4 tensor. -/
def dropout4 (rate : ℚ) (det : Bool) (keep : Nat → Nat → Nat → Nat → Bool) (x : T4) : T4 :=
  { x with val := fun i j k l =>
      if rate = 0 ∨ det = true then x.val i j k l
      else if rate = 1 then 0
      else if keep i j k l = true then x.val i j k l / (1 - rate) else 0 }

/-- `nn.softmax(t, axis=-1)`: numerically stable softmax over the last axis
(subtract the per-row maximum before exponentiating). -/
def softmaxLast4 (prim : Prim) (t : T4) : T4 :=
  { t with val := fun i j k l =>
      let mx := maxF t.d3 (fun m => t.val i j k m)
      prim.exp (t.val i j k l - mx) /
        sumF t.d3 (fun m => prim.exp (t.val i j k m - mx)) }

/-- Batched matrix product contracting the last axis of `a` with the
third axis of `b` (`a @ b` on rank-4 tensors). -/
def matmul4 (a b : T4) : T4 :=
  ⟨a.d0, a.d1, a.d2, b.d3,
   fun i j x y => sumF a.d3 (fun m => a.val i j x m * b.val i j m y)⟩

/-- `t.swapaxes(-2, -1)` on a rank-4 tensor. -/
def swapLast2 (t : T4) : T4 :=
  ⟨t.d0, t.d1, t.d3, t.d2, fun i j k l => t.val i j l k⟩

/-- `t.swapaxes(1, 2)` on a rank-4 tensor. -/
def swap12 (t : T4) : T4 :=
  ⟨t.d0, t.d2, t.d1, t.d3, fun i j k l => t.val i k j l⟩

/-- `reshape(batch, seq, num_heads, head_dim)`: split the last axis. -/
def splitHeads (numHeads headDim : Nat) (t : T3) : T4 :=
  ⟨t.d0, t.d1, numHeads, headDim, fun i j a c => t.val i j (a * headDim + c)⟩

/-- `reshape(batch, seq, embed_dim)`: merge the last two axes back. -/
def mergeHeads (embedDim headDim : Nat) (t : T4) : T3 :=
  ⟨t.d0, t.d1, embedDim, fun i j m => t.val i j (m / headDim) (m % headDim)⟩

/-- Divide every entry by a scalar (`/ jnp.sqrt(head_dim)`). -/
def scale4 (s : ℚ) (t : T4) : T4 :=
  { t with val := fun i j k l => t.val i j k l / s }

/-- Pointwise addition; dimensions are taken from the first operand (the two
operands always agree on the reached paths). -/
def add3 (x y : T3) : T3 :=
  { x with val := fun i j k => x.val i j k + y.val i j k }

/-- `nn.gelu` applied pointwise. -/
def gelu3 (prim : Prim) (x : T3) : T3 :=
  { x with val := fun i j k => prim.gelu (x.val i j k) }

/-- Modelled from the spec: `quantum_transformers.quantum_layer.QuantumLayer`
is imported by `transformers.py` but its source file is not part of the
sources; per the spec (sections 3, 6 and 7) it is a parameterized transform
keyed by `num_qubits` that maps an input row of width `num_qubits` to an
output row of the same width, owns its learned circuit parameters, and a
width mismatch is a quantum-width error. -/
def quantumLayer (nq : Nat) (c : Circuit) (theta : Nat → ℚ) (x : T3) : Except Err T3 :=
  if x.d2 = nq then
    .ok ⟨x.d0, x.d1, nq, fun i j k => c.f nq theta (fun m => x.val i j m) k⟩
  else .error .quantumWidth

/-- Configuration fields of `MultiHeadSelfAttention`. -/
structure MHSACfg where
  embedDim : Nat
  numHeads : Nat
  dropout : ℚ

/-- `MultiHeadSelfAttention.__call__`: checks (embedding dimension matches the
configured one, head divisibility), query/key/value projections (classical
dense maps, or `QuantumLayer`s of width `embed_dim` when a circuit is given),
scaled dot-product attention with stable softmax, dropout on the attention
weights, head merge, and the output projection. -/
def mhsaForward (prim : Prim) (c : MHSACfg) (p : AttnP) (rng : Rng) (x : T3)
    (det : Bool) (qc : Option Circuit) : Except Err T3 :=
  if x.d2 ≠ c.embedDim then .error .dimMismatch
  else if x.d2 % c.numHeads ≠ 0 then .error .headDivisibility
  else
    let e := x.d2
    let hd := e / c.numHeads
    let qkv : Except Err (T3 × T3 × T3) :=
      match qc with
      | none => .ok (denseT3 p.wq e x, denseT3 p.wk e x, denseT3 p.wv e x)
      | some circ => do
          let q ← quantumLayer e circ p.thq x
          let k ← quantumLayer e circ p.thk x
          let v ← quantumLayer e circ p.thv x
          pure (q, k, v)
    qkv.bind fun t =>
      let q4 := swap12 (splitHeads c.numHeads hd t.1)
      let k4 := swap12 (splitHeads c.numHeads hd t.2.1)
      let v4 := swap12 (splitHeads c.numHeads hd t.2.2)
      let logits := scale4 (prim.sqrt (hd : ℚ)) (matmul4 q4 (swapLast2 k4))
      let attn := softmaxLast4 prim logits
      let attnD := dropout4 c.dropout det (rngSlice4 rng 0) attn
      let vals := matmul4 attnD v4
      let merged := mergeHeads e hd (swap12 vals)
      match qc with
      | none => .ok (denseT3 p.wo e merged)
      | some circ => quantumLayer e circ p.tho merged

/-- Default of the `dropout` field of the `FeedForward` module
(`dropout: float = 0.0`). -/
def ffDefaultDropout : ℚ := 0

/-- `FeedForward.__call__`: dense expansion to `mlp_hidden_size`, an optional
`QuantumLayer` of width `mlp_hidden_size` when a circuit is given, dropout,
GELU, dense contraction back to `hidden_size`. -/
def ffForward (prim : Prim) (hiddenSize mlpHiddenSize : Nat) (rate : ℚ)
    (p : FFP) (rng : Rng) (det : Bool) (qm : Option Circuit) (x : T3) :
    Except Err T3 := do
  let a := denseT3 p.fc1 mlpHiddenSize x
  let a ← match qm with
    | some circ => quantumLayer mlpHiddenSize circ p.thm a
    | none => pure a
  let a := dropout3 rate det (rngSlice3 rng 0) a
  let a := gelu3 prim a
  pure (denseT3 p.fc2 hiddenSize a)

/-- Configuration fields of `TransformerBlock`. -/
structure BlockCfg where
  hiddenSize : Nat
  numHeads : Nat
  mlpHiddenSize : Nat
  dropout : ℚ

/-- `TransformerBlock.__call__`: pre-norm residual attention branch with a
residual dropout at the configured rate, then pre-norm residual feed-forward
branch with a residual dropout at the configured rate.  The `FeedForward`
instance is constructed without a dropout argument, so its internal dropout
runs at the field default `ffDefaultDropout = 0`. -/
def blockForward (prim : Prim) (c : BlockCfg) (p : BlockP) (rng : Rng)
    (det : Bool) (qa qm : Option Circuit) (x : T3) : Except Err T3 := do
  let a0 := layerNorm3 prim p.ln1 x
  let a1 ← mhsaForward prim ⟨c.hiddenSize, c.numHeads, c.dropout⟩ p.attn
    (rngShift rng 0) a0 det qa
  let a2 := dropout3 c.dropout det (rngSlice3 rng 1) a1
  let x1 := add3 x a2
  let b0 := layerNorm3 prim p.ln2 x1
  let b1 ← ffForward prim c.hiddenSize c.mlpHiddenSize ffDefaultDropout p.ff
    (rngShift rng 2) det qm b0
  let b2 := dropout3 c.dropout det (rngSlice3 rng 3) b1
  pure (add3 x1 b2)

/-- Spec-comparison variant of `blockForward` for claim C4, with the rate of
the dropout inside the feed-forward sublayer made an explicit parameter: the
wording of the spec corresponds to `ffRate = c.dropout`, while the code
corresponds to `ffRate = 0` (the `FeedForward` field default). -/
def blockSpecC4 (ffRate : ℚ) (prim : Prim) (c : BlockCfg) (p : BlockP) (rng : Rng)
    (det : Bool) (qa qm : Option Circuit) (x : T3) : Except Err T3 := do
  let a0 := layerNorm3 prim p.ln1 x
  let a1 ← mhsaForward prim ⟨c.hiddenSize, c.numHeads, c.dropout⟩ p.attn
    (rngShift rng 0) a0 det qa
  let a2 := dropout3 c.dropout det (rngSlice3 rng 1) a1
  let x1 := add3 x a2
  let b0 := layerNorm3 prim p.ln2 x1
  let b1 ← ffForward prim c.hiddenSize c.mlpHiddenSize ffRate p.ff
    (rngShift rng 2) det qm b0
  let b2 := dropout3 c.dropout det (rngSlice3 rng 3) b1
  pure (add3 x1 b2)

/-- The `for _ in range(n)` loop of blocks: apply block `i`, `i+1`, ... for
`n` steps, each with its own parameters and rng sites. -/
def runBlocks (prim : Prim) (c : BlockCfg) (ps : Nat → BlockP) (rng : Rng)
    (det : Bool) (qa qm : Option Circuit) : Nat → Nat → T3 → Except Err T3
  | _, 0, x => .ok x
  | i, n + 1, x =>
      (blockForward prim c (ps i) (rngShift rng (4 * i)) det qa qm x).bind
        (runBlocks prim c ps rng det qa qm (i + 1) n)

/-- `jnp.mean(t, axis=1)` on a rank-3 tensor. -/
def meanAxis1 (t : T3) : T2 :=
  ⟨t.d0, t.d2, fun i k => sumF t.d1 (fun j => t.val i j k) / (t.d1 : ℚ)⟩

/-- Configuration fields of the text `Transformer`. -/
structure TCfg where
  numTokens : Nat
  maxSeqLen : Nat
  numClasses : Nat
  hiddenSize : Nat
  numHeads : Nat
  numTransformerBlocks : Nat
  mlpHiddenSize : Nat
  dropout : ℚ

/-- Parameters of the text `Transformer`: token and positional embedding
tables, the block stack, the final layer norm and the classification head. -/
structure TParams where
  tok : Nat → Nat → ℚ
  pos : Nat → Nat → ℚ
  blocks : Nat → BlockP
  lnF : LNP
  head : DenseP

/-- `Transformer.__call__`: token embedding lookup, positional embedding of
positions `0..seq-1`, dropout, the block stack, final layer norm, global
average pooling over the sequence axis, classification head.  Index bounds of
the embedding tables are caller preconditions (JAX gather), hence total here. -/
def transformerForward (prim : Prim) (c : TCfg) (p : TParams) (rng : Rng)
    (x : TI2) (train : Bool) (qa qm : Option Circuit) : Except Err T2 := do
  let xe : T3 := ⟨x.d0, x.d1, c.hiddenSize, fun i j k => p.tok (x.val i j) k⟩
  let xp : T3 := { xe with val := fun i j k => xe.val i j k + p.pos j k }
  let xd := dropout3 c.dropout (!train) (rngSlice3 rng 0) xp
  let xb ← runBlocks prim ⟨c.hiddenSize, c.numHeads, c.mlpHiddenSize, c.dropout⟩
    p.blocks (rngShift rng 1) (!train) qa qm 0 c.numTransformerBlocks xd
  let xn := layerNorm3 prim p.lnF xb
  pure (denseT2 p.head c.numClasses (meanAxis1 xn))

/-- Configuration fields of `VisionTransformer`.  The classifier is a string
as in the source (`Literal` is not enforced at runtime). -/
structure VTCfg where
  numClasses : Nat
  patchSize : Nat
  hiddenSize : Nat
  numHeads : Nat
  numTransformerBlocks : Nat
  mlpHiddenSize : Nat
  dropout : ℚ
  channelsLast : Bool
  classifier : String

/-- Parameters of the patch convolution: kernel indexed
`(di, dj, channel, feature)` plus bias. -/
structure ConvP where
  w : Nat → Nat → Nat → Nat → ℚ
  b : Nat → ℚ

/-- Parameters of the `VisionTransformer`. -/
structure VTParams where
  conv : ConvP
  cls : Nat → ℚ
  pos : Nat → Nat → ℚ
  blocks : Nat → BlockP
  lnF : LNP
  head : DenseP

/-- `x.transpose((0, 3, 1, 2))`: output axis `i` takes input axis `(0,3,1,2)[i]`,
so the result has dimensions `(d0, d3, d1, d2)` and
`out[i,j,k,l] = in[i,k,l,j]`. -/
def transpose0312 (t : T4) : T4 :=
  ⟨t.d0, t.d3, t.d1, t.d2, fun i j k l => t.val i k l j⟩

/-- Spatial output extent of a VALID convolution with kernel size and stride
both `k`. -/
def convOutDim (n k : Nat) : Nat := if n < k then 0 else (n - k) / k + 1

/-- `nn.Conv(features, kernel_size=(p,p), strides=p, padding="VALID")` on an
NHWC tensor. -/
def convPatch (features patch : Nat) (p : ConvP) (x : T4) : T4 :=
  ⟨x.d0, convOutDim x.d1 patch, convOutDim x.d2 patch, features,
   fun b i j f => p.b f + sumF patch (fun di => sumF patch (fun dj =>
     sumF x.d3 (fun cc =>
       x.val b (i * patch + di) (j * patch + dj) cc * p.w di dj cc f)))⟩

/-- Row-major flat valuation of a rank-4 tensor. -/
def flatVal4 (t : T4) (n : Nat) : ℚ :=
  t.val (n / (t.d1 * t.d2 * t.d3)) (n / (t.d2 * t.d3) % t.d1)
    (n / t.d3 % t.d2) (n % t.d3)

/-- `jnp.reshape(t, (a, b, c))` from rank 4 (row-major; the element counts
agree on every reached path, guarded by the square-input assert). -/
def reshape4to3 (t : T4) (a b c : Nat) : T3 :=
  ⟨a, b, c, fun i j k => flatVal4 t (i * (b * c) + j * c + k)⟩

/-- Prepend the broadcast classification token
(`jnp.concatenate([cls_token, x], axis=1)`). -/
def consToken (cls : Nat → ℚ) (t : T3) : T3 :=
  ⟨t.d0, t.d1 + 1, t.d2, fun i j k => if j = 0 then cls k else t.val i (j - 1) k⟩

/-- `x += pos_embedding` with the `(1, num_steps, hidden)` parameter broadcast
over the batch axis. -/
def addPos (pos : Nat → Nat → ℚ) (t : T3) : T3 :=
  { t with val := fun i j k => t.val i j k + pos j k }

/-- Patchification stage of `VisionTransformer.__call__`: optional layout
transpose, square-input check, strided VALID convolution, reshape to
`(batch, num_steps, hidden)` with `num_steps = (img_size // patch_size) ** 2`. -/
def visionPatches (c : VTCfg) (p : VTParams) (x0 : T4) : Except Err T3 :=
  let x := if c.channelsLast then x0 else transpose0312 x0
  if x.d1 ≠ x.d2 then .error .shapeError
  else
    let imgSize := x.d1
    let numSteps := (imgSize / c.patchSize) ^ 2
    let xc := convPatch c.hiddenSize c.patchSize p.conv x
    .ok (reshape4to3 xc x.d0 numSteps c.hiddenSize)

/-- Patch embeddings with the classification token prepended when the
classifier is `token` (`num_steps += 1`). -/
def visionTokens (c : VTCfg) (p : VTParams) (x0 : T4) : Except Err T3 :=
  (visionPatches c p x0).map fun t =>
    if c.classifier = "token" then consToken p.cls t else t

/-- `VisionTransformer.__call__` up to and including the final
`nn.LayerNorm()`: tokens, positional embedding, dropout, the block stack,
final layer norm. -/
def visionPostLN (prim : Prim) (c : VTCfg) (p : VTParams) (rng : Rng) (x0 : T4)
    (train : Bool) (qa qm : Option Circuit) : Except Err T3 := do
  let xt ← visionTokens c p x0
  let xp := addPos p.pos xt
  let xd := dropout3 c.dropout (!train) (rngSlice3 rng 0) xp
  let xb ← runBlocks prim ⟨c.hiddenSize, c.numHeads, c.mlpHiddenSize, c.dropout⟩
    p.blocks (rngShift rng 1) (!train) qa qm 0 c.numTransformerBlocks xd
  pure (layerNorm3 prim p.lnF xb)

/-- `x[:, 0]`: take position 0 (the classification token). -/
def takeRow0 (t : T3) : T2 :=
  ⟨t.d0, t.d2, fun i k => t.val i 0 k⟩

/-- Pooling stage of `VisionTransformer.__call__`: position 0 for `token`,
mean over positions for `gap`, and no pooling at all for any other
classifier value (no else branch in the source). -/
def visionPool (c : VTCfg) (t : T3) : TU :=
  if c.classifier = "token" then .t2 (takeRow0 t)
  else if c.classifier = "gap" then .t2 (meanAxis1 t)
  else .t3 t

/-- The classification head `nn.Dense(features=num_classes)`, acting on the
last axis of whatever rank the pooling stage produced. -/
def denseTU (p : DenseP) (features : Nat) : TU → TU
  | .t2 t => .t2 (denseT2 p features t)
  | .t3 t => .t3 (denseT3 p features t)

/-- `VisionTransformer.__call__`: the post-layer-norm activations, pooled and
passed through the classification head. -/
def visionForward (prim : Prim) (c : VTCfg) (p : VTParams) (rng : Rng) (x0 : T4)
    (train : Bool) (qa qm : Option Circuit) : Except Err TU :=
  (visionPostLN prim c p rng x0 train qa qm).map fun t =>
    denseTU p.head c.numClasses (visionPool c t)

/-- Shape of a successful rank-2 result. -/
def resShape2 : Except Err T2 → Option (Nat × Nat)
  | .ok t => some (t.d0, t.d1)
  | .error _ => none

/-- Shape of a successful rank-3 result. -/
def resShape3 : Except Err T3 → Option (Nat × Nat × Nat)
  | .ok t => some (t.d0, t.d1, t.d2)
  | .error _ => none

/-- Shape of a pooled tensor, as a list to cover both ranks. -/
def shapeTU : TU → List Nat
  | .t2 t => [t.d0, t.d1]
  | .t3 t => [t.d0, t.d1, t.d2]

/-- Shape of a successful pooled result. -/
def resShapeTU : Except Err TU → Option (List Nat)
  | .ok t => some (shapeTU t)
  | .error _ => none

/-- Whether a computation succeeded. -/
def isOkE {α : Type} : Except Err α → Bool
  | .ok _ => true
  | .error _ => false

/-- Entry of a successful rank-3 result (0 on error). -/
def getVal3 : Except Err T3 → Nat → Nat → Nat → ℚ
  | .ok t, i, j, k => t.val i j k
  | .error _, _, _, _ => 0

/-! ### Concrete instances used by witnesses and counterexamples -/

/-- Test primitives: `exp` and `sqrt` constantly 1, `gelu` the identity
(any `Prim` works for shape facts; value counterexamples fix this one). -/
def primT : Prim := ⟨fun _ => 1, fun _ => 1, fun q => q⟩

/-- Random stream keeping every entry. -/
def rngT : Rng := fun _ _ => true

/-- Identity circuit capability. -/
def circT : Circuit := ⟨fun _ _ x k => x k⟩

/-- All-zero dense parameters. -/
def dp0 : DenseP := ⟨fun _ _ => 0, fun _ => 0⟩

/-- Identity layer-norm parameters (scale 1, shift 0). -/
def lnId : LNP := ⟨fun _ => 1, fun _ => 0⟩

/-- All-zero attention parameters. -/
def apT : AttnP := ⟨dp0, dp0, dp0, dp0, fun _ => 0, fun _ => 0, fun _ => 0, fun _ => 0⟩

/-- Block configuration for the C4 counterexample:
`hidden = heads = mlp_hidden = 1`, dropout rate `1/2`. -/
def cfgC4 : BlockCfg := ⟨1, 1, 1, 1/2⟩

/-- Feed-forward parameters for the C4 counterexample: expansion bias 1,
contraction weight 1. -/
def ffC4 : FFP := ⟨⟨fun _ _ => 0, fun _ => 1⟩, ⟨fun _ _ => 1, fun _ => 0⟩, fun _ => 0⟩

/-- Block parameters for the C4 counterexample. -/
def bpC4 : BlockP := ⟨lnId, lnId, apT, ffC4⟩

/-- All-zero `1 × 1 × 1` input. -/
def xC4 : T3 := ⟨1, 1, 1, fun _ _ _ => 0⟩

/-- All-zero feed-forward parameters. -/
def ffpT : FFP := ⟨dp0, dp0, fun _ => 0⟩

/-- All-zero `1 × 1 × 1` input for the C6 counterexample. -/
def yC6 : T3 := ⟨1, 1, 1, fun _ _ _ => 0⟩

/-- Attention configuration `embed_dim = 4`, `num_heads = 2` for the C5
counterexample. -/
def cfg45 : MHSACfg := ⟨4, 2, 0⟩

/-- All-zero input of width 3 (not matching `embed_dim = 4`, not divisible
by 2 heads). -/
def x113 : T3 := ⟨1, 1, 3, fun _ _ _ => 0⟩

/-- Vision configuration with `channels_last = false` for the C1/C3 failing
input. -/
def cfgCF : VTCfg := ⟨3, 1, 2, 1, 1, 2, 0, false, "gap"⟩

/-- All-zero vision parameters. -/
def pV0 : VTParams :=
  ⟨⟨fun _ _ _ _ => 0, fun _ => 0⟩, fun _ => 0, fun _ _ => 0, fun _ => bpC4, lnId, dp0⟩

/-- A square `2 × 2` image with 3 channels in channel-first layout
`(batch, C, H, W) = (1, 3, 2, 2)`. -/
def xBug : T4 := ⟨1, 3, 2, 2, fun _ _ _ _ => 0⟩
/-- Attention configuration of the spec scenario `hidden_size = 8`,
`num_heads = 2`. -/
def cfgC8 : MHSACfg := ⟨8, 2, 0⟩
/-- All-zero input of shape `(2, 5, 8)` (the spec attention scenario). -/
def xC8 : T3 := ⟨2, 5, 8, fun _ _ _ => 0⟩
/-- Attention configuration `embed_dim = 3`, `num_heads = 2` (width matches,
not divisible). -/
def cfg32 : MHSACfg := ⟨3, 2, 0⟩
/-- A small valid text configuration (`hidden = 4`, `heads = 2`, 3 classes). -/
def cT1 : TCfg := ⟨10, 8, 3, 4, 2, 1, 4, 0⟩
/-- All-zero text-transformer parameters. -/
def pT0 : TParams := ⟨fun _ _ => 0, fun _ _ => 0, fun _ => bpC4, lnId, dp0⟩
/-- A `2 × 3` all-zero token batch. -/
def xT1 : TI2 := ⟨2, 3, fun _ _ => 0⟩
/-- A small valid vision configuration with the `gap` classifier. -/
def cV1 : VTCfg := ⟨3, 2, 4, 2, 1, 4, 0, true, "gap"⟩
/-- An all-zero `4 × 4` single-channel channel-last image batch. -/
def xV1 : T4 := ⟨1, 4, 4, 1, fun _ _ _ _ => 0⟩
/-- The spec patch-grid scenario: `image_size = 28`, `patch_size = 7`,
`token` classifier. -/
def cV28 : VTCfg := ⟨2, 7, 4, 2, 1, 4, 0, true, "token"⟩
/-- An all-zero `28 × 28` single-channel channel-last image. -/
def x28 : T4 := ⟨1, 28, 28, 1, fun _ _ _ _ => 0⟩
/-- A vision configuration whose classifier value is neither `token` nor
`gap`. -/
def cV10 : VTCfg := ⟨3, 2, 4, 2, 1, 4, 0, true, "none"⟩


/-! ### Helper lemmas -/


theorem dropout3_det (rate : ℚ) (keep : Nat → Nat → Nat → Bool) (x : T3) :
    dropout3 rate true keep x = x := by
  cases x with
  | mk d0 d1 d2 v => simp [dropout3]

theorem dropout4_det (rate : ℚ) (keep : Nat → Nat → Nat → Nat → Bool) (x : T4) :
    dropout4 rate true keep x = x := by
  cases x with
  | mk d0 d1 d2 d3 v => simp [dropout4]

theorem mhsa_rng_irrel (prim : Prim) (c : MHSACfg) (p : AttnP) (r r2 : Rng)
    (x : T3) (qc : Option Circuit) :
    mhsaForward prim c p r x true qc = mhsaForward prim c p r2 x true qc := by
  simp only [mhsaForward, dropout4_det]

theorem ff_rng_irrel (prim : Prim) (h m : Nat) (rate : ℚ) (p : FFP) (r r2 : Rng)
    (qm : Option Circuit) (x : T3) :
    ffForward prim h m rate p r true qm x = ffForward prim h m rate p r2 true qm x := by
  simp only [ffForward, dropout3_det]

theorem block_rng_irrel (prim : Prim) (c : BlockCfg) (p : BlockP) (r r2 : Rng)
    (qa qm : Option Circuit) (x : T3) :
    blockForward prim c p r true qa qm x = blockForward prim c p r2 true qa qm x := by
  simp only [blockForward, dropout3_det]
  rw [mhsa_rng_irrel prim ⟨c.hiddenSize, c.numHeads, c.dropout⟩ p.attn (rngShift r 0) (rngShift r2 0)]
  apply congrArg
  funext a1
  rw [ff_rng_irrel prim c.hiddenSize c.mlpHiddenSize ffDefaultDropout p.ff
    (rngShift r 2) (rngShift r2 2)]

theorem runBlocks_rng_irrel (prim : Prim) (c : BlockCfg) (ps : Nat → BlockP)
    (r r2 : Rng) (qa qm : Option Circuit) :
    ∀ n i x, runBlocks prim c ps r true qa qm i n x =
      runBlocks prim c ps r2 true qa qm i n x := by
  intro n
  induction n with
  | zero => intro i x; rfl
  | succ k ih =>
      intro i x
      simp only [runBlocks]
      rw [block_rng_irrel prim c (ps i) (rngShift r (4 * i)) (rngShift r2 (4 * i))]
      congr 1
      funext y
      exact ih (i + 1) y

theorem transformer_det (prim : Prim) (c : TCfg) (p : TParams) (r r2 : Rng)
    (x : TI2) (qa qm : Option Circuit) :
    transformerForward prim c p r x false qa qm =
      transformerForward prim c p r2 x false qa qm := by
  simp only [transformerForward, Bool.not_false, dropout3_det]
  rw [runBlocks_rng_irrel prim _ p.blocks (rngShift r 1) (rngShift r2 1) qa qm
    c.numTransformerBlocks 0]

theorem vision_det (prim : Prim) (c : VTCfg) (p : VTParams) (r r2 : Rng)
    (x0 : T4) (qa qm : Option Circuit) :
    visionForward prim c p r x0 false qa qm =
      visionForward prim c p r2 x0 false qa qm := by
  simp only [visionForward, visionPostLN, Bool.not_false, dropout3_det]
  apply congrArg
  apply congrArg
  funext xt
  rw [runBlocks_rng_irrel prim ⟨c.hiddenSize, c.numHeads, c.mlpHiddenSize, c.dropout⟩
    p.blocks (rngShift r 1) (rngShift r2 1) qa qm c.numTransformerBlocks 0]

theorem bind_ok_E {α β : Type} (a : α) (f : α → Except Err β) :
    (Except.ok a : Except Err α) >>= f = f a := rfl

theorem mhsa_ok (prim : Prim) (c : MHSACfg) (p : AttnP) (rng : Rng) (x : T3)
    (det : Bool) (qc : Option Circuit)
    (h1 : x.d2 = c.embedDim) (h2 : x.d2 % c.numHeads = 0) :
    ∃ y, mhsaForward prim c p rng x det qc = .ok y ∧
      y.d0 = x.d0 ∧ y.d1 = x.d1 ∧ y.d2 = x.d2 := by
  cases qc with
  | none =>
      unfold mhsaForward
      rw [if_neg (by simp [h1]), if_neg (by simp [h2])]
      exact ⟨_, rfl, rfl, rfl, rfl⟩
  | some circ =>
      unfold mhsaForward
      rw [if_neg (by simp [h1]), if_neg (by simp [h2])]
      simp only [quantumLayer, mergeHeads, if_pos rfl]
      exact ⟨_, rfl, rfl, rfl, rfl⟩

theorem ff_ok (prim : Prim) (h m : Nat) (rate : ℚ) (p : FFP) (rng : Rng)
    (det : Bool) (qm : Option Circuit) (x : T3) :
    ∃ t, ffForward prim h m rate p rng det qm x = .ok t ∧
      t.d0 = x.d0 ∧ t.d1 = x.d1 ∧ t.d2 = h := by
  cases qm with
  | none => exact ⟨_, rfl, rfl, rfl, rfl⟩
  | some circ =>
      unfold ffForward
      simp only [quantumLayer, denseT3, if_pos rfl]
      exact ⟨_, rfl, rfl, rfl, rfl⟩

theorem block_ok (prim : Prim) (c : BlockCfg) (p : BlockP) (rng : Rng)
    (det : Bool) (qa qm : Option Circuit) (x : T3)
    (h1 : x.d2 = c.hiddenSize) (h2 : c.hiddenSize % c.numHeads = 0) :
    ∃ y, blockForward prim c p rng det qa qm x = .ok y ∧
      y.d0 = x.d0 ∧ y.d1 = x.d1 ∧ y.d2 = x.d2 := by
  obtain ⟨a1, ha, _, _, _⟩ := mhsa_ok prim ⟨c.hiddenSize, c.numHeads, c.dropout⟩
    p.attn (rngShift rng 0) (layerNorm3 prim p.ln1 x) det qa h1 (by rw [show (layerNorm3 prim p.ln1 x).d2 = c.hiddenSize from h1]; exact h2)
  obtain ⟨b1, hb, _, _, _⟩ := ff_ok prim c.hiddenSize c.mlpHiddenSize ffDefaultDropout
    p.ff (rngShift rng 2) det qm
    (layerNorm3 prim p.ln2 (add3 x (dropout3 c.dropout det (rngSlice3 rng 1) a1)))
  refine ⟨add3 (add3 x (dropout3 c.dropout det (rngSlice3 rng 1) a1))
      (dropout3 c.dropout det (rngSlice3 rng 3) b1), ?_, rfl, rfl, rfl⟩
  simp only [blockForward]
  rw [ha, bind_ok_E, hb, bind_ok_E]
  rfl

theorem runBlocks_ok (prim : Prim) (c : BlockCfg) (ps : Nat → BlockP) (rng : Rng)
    (det : Bool) (qa qm : Option Circuit)
    (h2 : c.hiddenSize % c.numHeads = 0) :
    ∀ n i (x : T3), x.d2 = c.hiddenSize →
      ∃ y, runBlocks prim c ps rng det qa qm i n x = .ok y ∧
        y.d0 = x.d0 ∧ y.d1 = x.d1 ∧ y.d2 = x.d2 := by
  intro n
  induction n with
  | zero => exact fun i x _ => ⟨x, rfl, rfl, rfl, rfl⟩
  | succ k ih =>
      intro i x h1
      obtain ⟨y, hy, hy0, hy1, hy2⟩ := block_ok prim c (ps i)
        (rngShift rng (4 * i)) det qa qm x h1 h2
      obtain ⟨z, hz, hz0, hz1, hz2⟩ := ih (i + 1) y (by rw [hy2, h1])
      refine ⟨z, ?_, by rw [hz0, hy0], by rw [hz1, hy1], by rw [hz2, hy2]⟩
      simp only [runBlocks]
      rw [hy]
      exact hz

theorem map_ok_E {α β : Type} (f : α → β) (a : α) :
    Except.map f (Except.ok a : Except Err α) = .ok (f a) := rfl

theorem classifier_tail (prim : Prim) (cB : BlockCfg) (bs : Nat → BlockP)
    (rng : Rng) (det : Bool) (qa qm : Option Circuit) (n : Nat) (lnp : LNP)
    (hp : DenseP) (ncls : Nat) (xd : T3)
    (h1 : xd.d2 = cB.hiddenSize) (h2 : cB.hiddenSize % cB.numHeads = 0) :
    resShape2 ((runBlocks prim cB bs rng det qa qm 0 n xd) >>= fun xb =>
      pure (denseT2 hp ncls (meanAxis1 (layerNorm3 prim lnp xb)))) =
      some (xd.d0, ncls) := by
  obtain ⟨y, hy, hy0, _, _⟩ := runBlocks_ok prim cB bs rng det qa qm h2 n 0 xd h1
  rw [hy, bind_ok_E]
  simp [resShape2, denseT2, meanAxis1, layerNorm3, hy0]
  rfl

theorem transformer_shape (prim : Prim) (c : TCfg) (p : TParams) (rng : Rng)
    (x : TI2) (train : Bool) (qa qm : Option Circuit)
    (h2 : c.hiddenSize % c.numHeads = 0) :
    resShape2 (transformerForward prim c p rng x train qa qm) =
      some (x.d0, c.numClasses) :=
  classifier_tail prim ⟨c.hiddenSize, c.numHeads, c.mlpHiddenSize, c.dropout⟩
    p.blocks (rngShift rng 1) (!train) qa qm c.numTransformerBlocks p.lnF p.head
    c.numClasses
    (dropout3 c.dropout (!train) (rngSlice3 rng 0)
      ⟨x.d0, x.d1, c.hiddenSize, fun i j k => p.tok (x.val i j) k + p.pos j k⟩)
    rfl h2

theorem visionPatches_ok (c : VTCfg) (p : VTParams) (x0 : T4)
    (hcl : c.channelsLast = true) (hsq : x0.d1 = x0.d2) :
    visionPatches c p x0 = .ok (reshape4to3
      (convPatch c.hiddenSize c.patchSize p.conv x0) x0.d0
      ((x0.d1 / c.patchSize) ^ 2) c.hiddenSize) := by
  simp only [visionPatches, hcl, if_true]
  simp [hsq]

theorem visionTokens_ok (c : VTCfg) (p : VTParams) (x0 : T4)
    (hcl : c.channelsLast = true) (hsq : x0.d1 = x0.d2) :
    ∃ t, visionTokens c p x0 = .ok t ∧ t.d0 = x0.d0 ∧
      t.d1 = (if c.classifier = "token" then (x0.d1 / c.patchSize) ^ 2 + 1
        else (x0.d1 / c.patchSize) ^ 2) ∧
      t.d2 = c.hiddenSize := by
  simp only [visionTokens]
  rw [visionPatches_ok c p x0 hcl hsq, map_ok_E]
  refine ⟨_, rfl, ?_, ?_, ?_⟩
  · split <;> rfl
  · split <;> rfl
  · split <;> rfl

theorem visionPostLN_ok (prim : Prim) (c : VTCfg) (p : VTParams) (rng : Rng)
    (x0 : T4) (train : Bool) (qa qm : Option Circuit)
    (hcl : c.channelsLast = true) (hsq : x0.d1 = x0.d2)
    (hdiv : c.hiddenSize % c.numHeads = 0) :
    ∃ t, visionPostLN prim c p rng x0 train qa qm = .ok t ∧ t.d0 = x0.d0 ∧
      t.d1 = (if c.classifier = "token" then (x0.d1 / c.patchSize) ^ 2 + 1
        else (x0.d1 / c.patchSize) ^ 2) ∧
      t.d2 = c.hiddenSize := by
  obtain ⟨t, ht, ht0, ht1, ht2⟩ := visionTokens_ok c p x0 hcl hsq
  obtain ⟨y, hy, hy0, hy1, hy2⟩ := runBlocks_ok prim
    ⟨c.hiddenSize, c.numHeads, c.mlpHiddenSize, c.dropout⟩ p.blocks
    (rngShift rng 1) (!train) qa qm hdiv c.numTransformerBlocks 0
    (dropout3 c.dropout (!train) (rngSlice3 rng 0) (addPos p.pos t)) ht2
  refine ⟨layerNorm3 prim p.lnF y, ?_, hy0.trans ht0, hy1.trans ht1, hy2.trans ht2⟩
  simp only [visionPostLN]
  rw [ht]
  simp only [bind_ok_E]
  rw [hy]
  simp only [bind_ok_E]
  rfl

theorem vision_shape_pooled (prim : Prim) (c : VTCfg) (p : VTParams) (rng : Rng)
    (x0 : T4) (train : Bool) (qa qm : Option Circuit)
    (hcl : c.channelsLast = true) (hsq : x0.d1 = x0.d2)
    (hdiv : c.hiddenSize % c.numHeads = 0)
    (hcls : c.classifier = "token" ∨ c.classifier = "gap") :
    resShapeTU (visionForward prim c p rng x0 train qa qm) =
      some [x0.d0, c.numClasses] := by
  obtain ⟨t, ht, ht0, ht1, ht2⟩ := visionPostLN_ok prim c p rng x0 train qa qm hcl hsq hdiv
  simp only [visionForward]
  rw [ht, map_ok_E]
  rcases hcls with h | h
  · simp [visionPool, h, denseTU, resShapeTU, shapeTU, takeRow0, denseT2, ht0]
  · simp [visionPool, h, denseTU, resShapeTU, shapeTU, meanAxis1, denseT2, ht0]

theorem ok_ne_error (e : Except Err T3) (he : isOkE e = true) (er : Err) :
    e ≠ .error er := by
  intro h
  subst h
  simp [isOkE] at he

-- ===== claim theorems =====

/-- C1: for every valid configuration and batch size, a forward evaluation of
the sequence classifier and of the image classifier returns logits of shape
exactly `(batch, num_classes)` — proved for the sequence classifier and for
the image classifier with `channels_last = true`; the third conjunct records
the code bug that breaks the claim for `channels_last = false`: on the square
channel-first image `xBug` the forward call aborts with the square-input
error instead of returning logits, because the layout transpose uses the
wrong permutation. -/
theorem classifier_logits_shape_c1
    (prim : Prim) (cT : TCfg) (pT : TParams) (rngA : Rng) (xT : TI2) (train : Bool)
    (qa qm : Option Circuit) (hT : cT.hiddenSize % cT.numHeads = 0)
    (cV : VTCfg) (pV : VTParams) (rngB : Rng) (xV : T4) (trainV : Bool)
    (qa2 qm2 : Option Circuit) (hV1 : cV.channelsLast = true) (hV2 : xV.d1 = xV.d2)
    (hV3 : cV.hiddenSize % cV.numHeads = 0)
    (hV4 : cV.classifier = "token" ∨ cV.classifier = "gap") :
    resShape2 (transformerForward prim cT pT rngA xT train qa qm) =
      some (xT.d0, cT.numClasses) ∧
    resShapeTU (visionForward prim cV pV rngB xV trainV qa2 qm2) =
      some [xV.d0, cV.numClasses] ∧
    visionForward primT cfgCF pV0 rngT xBug false none none = .error .shapeError :=
  ⟨transformer_shape prim cT pT rngA xT train qa qm hT,
   vision_shape_pooled prim cV pV rngB xV trainV qa2 qm2 hV1 hV2 hV3 hV4,
   rfl⟩

/-- C1 witness: concrete valid configurations, batch sizes 2 (text) and 1
(vision), with the failing channel-first input. -/
theorem classifier_logits_shape_c1_w :
    resShape2 (transformerForward primT cT1 pT0 rngT xT1 true none none) = some (2, 3) ∧
    resShapeTU (visionForward primT cV1 pV0 rngT xV1 false none none) = some [1, 3] ∧
    visionForward primT cfgCF pV0 rngT xBug false none none = .error .shapeError :=
  classifier_logits_shape_c1 primT cT1 pT0 rngT xT1 true none none (by decide)
    cV1 pV0 rngT xV1 false none none rfl rfl (by decide) (Or.inr rfl)

/-- C2: for fixed parameters and a fixed input, two forward calls with
`train = false` (hence `deterministic = true`) produce bit-identical outputs
for both classifiers, whatever the two random streams are; and dropout is the
exact identity in evaluation mode, on rank-3 and rank-4 tensors. -/
theorem eval_mode_determinism_c2 (prim : Prim) (cT : TCfg) (pT : TParams)
    (r1 r2 : Rng) (xT : TI2) (qa qm : Option Circuit)
    (cV : VTCfg) (pV : VTParams) (r3 r4 : Rng) (xV : T4) (qa2 qm2 : Option Circuit)
    (rate : ℚ) (keep : Nat → Nat → Nat → Bool) (x3 : T3)
    (rate4 : ℚ) (keep4 : Nat → Nat → Nat → Nat → Bool) (x4 : T4) :
    transformerForward prim cT pT r1 xT false qa qm =
      transformerForward prim cT pT r2 xT false qa qm ∧
    visionForward prim cV pV r3 xV false qa2 qm2 =
      visionForward prim cV pV r4 xV false qa2 qm2 ∧
    dropout3 rate true keep x3 = x3 ∧ dropout4 rate4 true keep4 x4 = x4 :=
  ⟨transformer_det prim cT pT r1 r2 xT qa qm,
   vision_det prim cV pV r3 r4 xV qa2 qm2,
   dropout3_det rate keep x3, dropout4_det rate4 keep4 x4⟩

/-- C3: the code bug refuting the claimed channel-first to channel-last
transpose.  On the channel-first input `xBug` of shape `(1, 3, 2, 2)`
(a square `2 x 2` image with 3 channels), `transpose((0, 3, 1, 2))` produces
spatial/channel dimensions `(2, 3, 2)` = `(W, C, H)`, not the `(2, 2, 3)` =
`(H, W, C)` the claim (and the comment in the source) require, and the
forward call then aborts with the square-input error on this square image. -/
theorem channel_first_transpose_bug_c3 :
    ((transpose0312 xBug).d1, (transpose0312 xBug).d2, (transpose0312 xBug).d3) = (2, 3, 2) ∧
    ((transpose0312 xBug).d1, (transpose0312 xBug).d2, (transpose0312 xBug).d3) ≠ (2, 2, 3) ∧
    visionForward primT cfgCF pV0 rngT xBug false none none = .error .shapeError :=
  ⟨rfl, by decide, rfl⟩

/-- C4 (amended): one `TransformerBlock` call equals the spec-worded variant
`blockSpecC4` with the feed-forward internal dropout rate fixed to 0: the two
residual dropouts use the configured rate and the shared deterministic flag,
and the dropout inside the feed-forward sublayer (between the expansion and
the GELU) shares the flag but runs at the `FeedForward` default rate 0, not
at the block's configured rate. -/
theorem block_dropout_wiring_c4 (prim : Prim) (c : BlockCfg) (p : BlockP)
    (rng : Rng) (det : Bool) (qa qm : Option Circuit) (x : T3) :
    blockForward prim c p rng det qa qm x = blockSpecC4 0 prim c p rng det qa qm x := rfl

/-- C4 counterexample: with configured dropout rate `1/2` in training mode,
the block output differs from what it would be had the configured rate been
forwarded to the feed-forward dropout (`blockSpecC4 cfgC4.dropout`), so the
feed-forward internal dropout does not use the block's configured rate. -/
theorem block_ff_dropout_rate_c4_cex :
    getVal3 (blockForward primT cfgC4 bpC4 rngT false none none xC4) 0 0 0 ≠
    getVal3 (blockSpecC4 cfgC4.dropout primT cfgC4 bpC4 rngT false none none xC4) 0 0 0 := by
  have h1 : getVal3 (blockForward primT cfgC4 bpC4 rngT false none none xC4) 0 0 0 = 2 := by
    norm_num [blockForward, mhsaForward, ffForward, ffDefaultDropout, quantumLayer,
      layerNorm3, denseT3, dropout3, dropout4, softmaxLast4, matmul4, swapLast2, swap12,
      splitHeads, mergeHeads, scale4, add3, gelu3, sumF, maxF, lnEps, primT, rngT,
      rngSlice3, rngSlice4, rngShift, cfgC4, bpC4, ffC4, xC4, apT, dp0, lnId, getVal3,
      Except.bind]
  have h2 : getVal3 (blockSpecC4 cfgC4.dropout primT cfgC4 bpC4 rngT false none none xC4) 0 0 0 = 4 := by
    norm_num [blockSpecC4, mhsaForward, ffForward, ffDefaultDropout, quantumLayer,
      layerNorm3, denseT3, dropout3, dropout4, softmaxLast4, matmul4, swapLast2, swap12,
      splitHeads, mergeHeads, scale4, add3, gelu3, sumF, maxF, lnEps, primT, rngT,
      rngSlice3, rngSlice4, rngShift, cfgC4, bpC4, ffC4, xC4, apT, dp0, lnId, getVal3,
      Except.bind]
  rw [h1, h2]
  norm_num

/-- C5 (amended): for every input whose embedding width equals the configured
`embed_dim` and is not divisible by `num_heads`, the attention call fails
with the head-divisibility error before any projection or attention
computation (the error is returned by the leading checks). -/
theorem head_divisibility_error_c5 (prim : Prim) (c : MHSACfg) (p : AttnP)
    (rng : Rng) (x : T3) (det : Bool) (qc : Option Circuit)
    (h1 : x.d2 = c.embedDim) (h2 : x.d2 % c.numHeads ≠ 0) :
    mhsaForward prim c p rng x det qc = .error .headDivisibility := by
  unfold mhsaForward
  rw [if_neg (by simp [h1]), if_pos h2]

/-- C5 counterexample: an input of width 3 (not divisible by 2 heads) fed to
an attention sublayer configured with `embed_dim = 4` fails with the
dimension-mismatch error, not the head-divisibility error, because the
width-equality assert runs first. -/
theorem head_divisibility_error_c5_cex :
    x113.d2 % cfg45.numHeads ≠ 0 ∧
    mhsaForward primT cfg45 apT rngT x113 true none = .error .dimMismatch ∧
    mhsaForward primT cfg45 apT rngT x113 true none ≠ .error .headDivisibility := by
  refine ⟨by decide, rfl, ?_⟩
  intro h
  rw [show mhsaForward primT cfg45 apT rngT x113 true none = .error .dimMismatch from rfl] at h
  exact absurd (Except.error.inj h) (by decide)

/-- C5 witness: width 3 matching `embed_dim = 3` with 2 heads yields the
head-divisibility error. -/
theorem head_divisibility_error_c5_w :
    x113.d2 = cfg32.embedDim ∧ x113.d2 % cfg32.numHeads ≠ 0 ∧
    mhsaForward primT cfg32 apT rngT x113 true none = .error .headDivisibility :=
  ⟨rfl, by decide,
   head_divisibility_error_c5 primT cfg32 apT rngT x113 true none rfl (by decide)⟩

/-- C6 (amended): when a quantum capability is supplied to the feed-forward
sublayer, no width equality between `mlp_hidden_size` and `hidden_size` is
required: the quantum transform is applied after the classical expansion at
width `mlp_hidden_size`, which always matches its qubit count, so the call
succeeds for every width pair and returns shape `(batch, seq, hidden_size)`. -/
theorem ff_quantum_width_c6 (prim : Prim) (h m : Nat) (rate : ℚ) (p : FFP)
    (rng : Rng) (det : Bool) (circ : Circuit) (x : T3) :
    resShape3 (ffForward prim h m rate p rng det (some circ) x) =
      some (x.d0, x.d1, h) := by
  obtain ⟨t, ht, h0, hh1, hh2⟩ := ff_ok prim h m rate p rng det (some circ) x
  rw [ht]
  simp [resShape3, h0, hh1, hh2]

/-- C6 counterexample: with `hidden_size = 1` and `mlp_hidden_size = 2`
(widths differ) and a quantum circuit supplied, the feed-forward call
succeeds — it is not a quantum-width error as the claim states. -/
theorem ff_quantum_width_c6_cex :
    (1 : Nat) ≠ 2 ∧
    isOkE (ffForward primT 1 2 0 ffpT rngT true (some circT) yC6) = true ∧
    ffForward primT 1 2 0 ffpT rngT true (some circT) yC6 ≠ .error Err.quantumWidth :=
  ⟨by decide, rfl,
   ok_ne_error (ffForward primT 1 2 0 ffpT rngT true (some circT) yC6) rfl
     Err.quantumWidth⟩

/-- C7: the image classifier produces
`num_patches = (image_size / patch_size) ^ 2` patch embeddings (floor
division drops the remainder), and with the `token` classifier the tensor
receiving the positional embedding has `num_patches + 1` positions. -/
theorem patch_grid_c7 (c : VTCfg) (p : VTParams) (x0 : T4)
    (hcl : c.channelsLast = true) (hsq : x0.d1 = x0.d2)
    (htok : c.classifier = "token") :
    resShape3 (visionPatches c p x0) =
      some (x0.d0, (x0.d1 / c.patchSize) ^ 2, c.hiddenSize) ∧
    resShape3 (visionTokens c p x0) =
      some (x0.d0, (x0.d1 / c.patchSize) ^ 2 + 1, c.hiddenSize) := by
  constructor
  · rw [visionPatches_ok c p x0 hcl hsq]
    rfl
  · obtain ⟨t, ht, h0, h1, h2⟩ := visionTokens_ok c p x0 hcl hsq
    rw [ht]
    simp [resShape3, h0, h2, h1, htok]

/-- C7 witness: `image_size = 28`, `patch_size = 7` gives 16 patches and,
with the `token` classifier, 17 positions carrying positional embeddings. -/
theorem patch_grid_c7_w :
    resShape3 (visionPatches cV28 pV0 x28) = some (1, 16, 4) ∧
    resShape3 (visionTokens cV28 pV0 x28) = some (1, 17, 4) :=
  patch_grid_c7 cV28 pV0 x28 rfl rfl rfl

/-- C8: for every input of shape `(batch, seq, hidden)` with `hidden` equal
to the configured width and divisible by `num_heads`, the attention sublayer
output shape equals its input shape, both on the classical path and on the
quantum path for every supplied circuit (where all four projections use the
quantum transform of width `hidden`). -/
theorem attention_shape_c8 (prim : Prim) (c : MHSACfg) (p : AttnP) (rng : Rng)
    (x : T3) (det : Bool) (h1 : x.d2 = c.embedDim) (h2 : x.d2 % c.numHeads = 0) :
    ∀ qc : Option Circuit,
      resShape3 (mhsaForward prim c p rng x det qc) = some (x.d0, x.d1, x.d2) := by
  intro qc
  obtain ⟨y, hy, a, b, d⟩ := mhsa_ok prim c p rng x det qc h1 h2
  rw [hy]
  simp [resShape3, a, b, d]

/-- C8 witness: the spec scenario `hidden = 8`, `heads = 2`, `batch = 2`,
`seq = 5` gives output shape `(2, 5, 8)` on both paths. -/
theorem attention_shape_c8_w :
    resShape3 (mhsaForward primT cfgC8 apT rngT xC8 true none) = some (2, 5, 8) ∧
    resShape3 (mhsaForward primT cfgC8 apT rngT xC8 true (some circT)) = some (2, 5, 8) :=
  ⟨attention_shape_c8 primT cfgC8 apT rngT xC8 true rfl (by decide) none,
   attention_shape_c8 primT cfgC8 apT rngT xC8 true rfl (by decide) (some circT)⟩

/-- C9: with `classifier = gap`, the image-classifier output is exactly the
classification head applied to the arithmetic mean over the position axis of
the activations produced by the final layer normalization, for every input. -/
theorem gap_pooling_c9 (prim : Prim) (c : VTCfg) (p : VTParams) (rng : Rng)
    (x0 : T4) (train : Bool) (qa qm : Option Circuit)
    (hgap : c.classifier = "gap") :
    visionForward prim c p rng x0 train qa qm =
      (visionPostLN prim c p rng x0 train qa qm).map
        (fun t => TU.t2 (denseT2 p.head c.numClasses (meanAxis1 t))) := by
  unfold visionForward
  have hfun : (fun t => denseTU p.head c.numClasses (visionPool c t)) =
      fun t : T3 => TU.t2 (denseT2 p.head c.numClasses (meanAxis1 t)) := by
    funext t
    simp [visionPool, hgap, denseTU]
  rw [hfun]

/-- C9 witness: the gap configuration `cV1` on the concrete input `xV1`. -/
theorem gap_pooling_c9_w :
    visionForward primT cV1 pV0 rngT xV1 false none none =
      (visionPostLN primT cV1 pV0 rngT xV1 false none none).map
        (fun t => TU.t2 (denseT2 pV0.head cV1.numClasses (meanAxis1 t))) :=
  gap_pooling_c9 primT cV1 pV0 rngT xV1 false none none rfl

/-- C10: with a classifier value outside token/gap, the forward call does not
fail: pooling is silently skipped and the result is a rank-3 tensor of shape
`(batch, num_positions, num_classes)`. -/
theorem unknown_classifier_rank3_c10 (prim : Prim) (c : VTCfg) (p : VTParams)
    (rng : Rng) (x0 : T4) (train : Bool) (qa qm : Option Circuit)
    (hcl : c.channelsLast = true) (hsq : x0.d1 = x0.d2)
    (hdiv : c.hiddenSize % c.numHeads = 0)
    (ht : c.classifier ≠ "token") (hg : c.classifier ≠ "gap") :
    resShapeTU (visionForward prim c p rng x0 train qa qm) =
      some [x0.d0, (x0.d1 / c.patchSize) ^ 2, c.numClasses] := by
  obtain ⟨t, htl, h0, h1, h2⟩ := visionPostLN_ok prim c p rng x0 train qa qm hcl hsq hdiv
  simp only [visionForward]
  rw [htl, map_ok_E]
  simp [visionPool, ht, hg, denseTU, resShapeTU, shapeTU, denseT3, h0, h1]

/-- C10 witness: classifier string `none` yields shape `[1, 4, 3]` (rank 3)
on a `4 x 4` image with `patch_size = 2` and 3 classes. -/
theorem unknown_classifier_rank3_c10_w :
    resShapeTU (visionForward primT cV10 pV0 rngT xV1 true none none) = some [1, 4, 3] :=
  unknown_classifier_rank3_c10 primT cV10 pV0 rngT xV1 true none none rfl rfl
    (by decide) (by decide) (by decide)
